import Mathlib

/-
Verification of the Solana program listener core: the discriminator-based
account classifier, the manual Anchor layout decoder for the Poll account,
the discriminator-stripping wrapper, the persistence-record construction,
and the shutdown sequencing of the main loop.

Bytes are modelled as natural numbers; byte buffers as List Nat.
Rust strings are modelled as their UTF-8 byte sequences.
Rust panics are modelled as the outer None of an Option-valued function.
-/

/-! ## Byte-level primitives -/

/-- The slice data[off .. off+n] of a byte buffer, as in Rust range slicing
after a bounds check has established off+n <= data.len(). -/
def readSlice (l : List Nat) (off n : Nat) : List Nat :=
  (l.drop off).take n

/-- Little-endian interpretation of a byte list, as in u64::from_le_bytes /
u32::from_le_bytes. -/
def leNat : List Nat → Nat
  | [] => 0
  | b :: rest => b + 256 * leNat rest

/-! ## UTF-8 validity, as checked by std::str::from_utf8 -/

/-- Continuation byte test: 0x80 <= c <= 0xBF. -/
def isUtf8Cont (c : Nat) : Bool := 0x80 ≤ c && c ≤ 0xBF

/-- Constraint on the second byte of a three-byte sequence headed by b
(0xE0 excludes overlong forms, 0xED excludes surrogates). -/
def utf8Byte2Of3Ok (b c : Nat) : Bool :=
  if b = 0xE0 then 0xA0 ≤ c && c ≤ 0xBF
  else if b = 0xED then 0x80 ≤ c && c ≤ 0x9F
  else isUtf8Cont c

/-- Constraint on the second byte of a four-byte sequence headed by b
(0xF0 excludes overlong forms, 0xF4 caps code points at U+10FFFF). -/
def utf8Byte2Of4Ok (b c : Nat) : Bool :=
  if b = 0xF0 then 0x90 ≤ c && c ≤ 0xBF
  else if b = 0xF4 then 0x80 ≤ c && c ≤ 0x8F
  else isUtf8Cont c

/-- Validity of a byte sequence as UTF-8 (RFC 3629), the predicate behind
std::str::from_utf8 succeeding. -/
def isValidUtf8 : List Nat → Bool
  | [] => true
  | b :: rest =>
    if b ≤ 0x7F then isValidUtf8 rest
    else if b < 0xC2 then false
    else if b ≤ 0xDF then
      match rest with
      | c1 :: rest1 => isUtf8Cont c1 && isValidUtf8 rest1
      | [] => false
    else if b ≤ 0xEF then
      match rest with
      | c1 :: c2 :: rest2 => utf8Byte2Of3Ok b c1 && isUtf8Cont c2 && isValidUtf8 rest2
      | _ => false
    else if b ≤ 0xF4 then
      match rest with
      | c1 :: c2 :: c3 :: rest3 =>
        utf8Byte2Of4Ok b c1 && isUtf8Cont c2 && isUtf8Cont c3 && isValidUtf8 rest3
      | _ => false
    else false

/-! ## Discriminator classifier (src/main.rs) -/

def POLL_DISCRIMINATOR : List Nat := [110, 234, 167, 188, 231, 136, 153, 111]

def POOL_CANDIDATE_DISCRIMINATOR : List Nat := [86, 69, 250, 96, 193, 10, 222, 123]

def VOTE_DISCRIMINATOR : List Nat := [241, 93, 35, 191, 254, 147, 17, 202]

inductive VotingAccountType where
  | poll
  | candidate
  | vote
  | unknown
  deriving DecidableEq, Repr

/-- match_voting_account_type from src/main.rs. The outer None models the
panic of descriminator.copy_from_slice(data): copy_from_slice requires the
source slice length to equal the destination length 8, and the code only
rules out lengths below 8 before copying the whole input slice. -/
def matchVotingAccountType (data : List Nat) : Option VotingAccountType :=
  if data.length < 8 then some VotingAccountType.unknown
  else if data.length = 8 then
    some (if data = POLL_DISCRIMINATOR then VotingAccountType.poll
      else if data = POOL_CANDIDATE_DISCRIMINATOR then VotingAccountType.candidate
      else if data = VOTE_DISCRIMINATOR then VotingAccountType.vote
      else VotingAccountType.unknown)
  else none

/-! ## Poll account state and layout decoder (src/state/pool.rs) -/

structure Poll where
  poll_id : Nat
  poll_owner : List Nat
  poll_name : List Nat
  poll_description : List Nat
  poll_start : Nat
  poll_end : Nat
  candidate_amount : Nat
  candidate_winner : List Nat
  deriving DecidableEq, Repr

/-- read_anchor_string_manual from src/state/pool.rs: a 4-byte little-endian
length, rejected above maxLen, then that many bytes which must be valid
UTF-8; on success returns the string bytes and the consumed width 4+len. -/
def readAnchorStringManual (data : List Nat) (maxLen : Nat) : Option (List Nat × Nat) :=
  if data.length < 4 then none
  else
    let len := leNat (readSlice data 0 4)
    if len > maxLen then none
    else if data.length < 4 + len then none
    else
      let stringBytes := readSlice data 4 len
      if isValidUtf8 stringBytes then some (stringBytes, 4 + len) else none

/-- Poll::try_from_anchor_bytes from src/state/pool.rs, instrumented with the
final cursor position: the second component of the result is the offset just
past the candidate_winner bytes, i.e. the number of bytes the decode
consumed. The source keeps the same running offset variable; it merely does
not bump it after the last read because it is no longer used. -/
def tryFromAnchorBytesAux (data : List Nat) : Option (Poll × Nat) :=
  if data.length < 0 + 8 then none else
  let poll_id := leNat (readSlice data 0 8)
  if data.length < 8 + 32 then none else
  let poll_owner := readSlice data 8 32
  match readAnchorStringManual (data.drop 40) 64 with
  | none => none
  | some (poll_name, len1) =>
    match readAnchorStringManual (data.drop (40 + len1)) 280 with
    | none => none
    | some (poll_description, len2) =>
      let o4 := 40 + len1 + len2
      if data.length < o4 + 8 then none else
      let poll_start := leNat (readSlice data o4 8)
      if data.length < o4 + 8 + 8 then none else
      let poll_end := leNat (readSlice data (o4 + 8) 8)
      if data.length < o4 + 16 + 8 then none else
      let candidate_amount := leNat (readSlice data (o4 + 16) 8)
      if data.length < o4 + 24 + 32 then none else
      let candidate_winner := readSlice data (o4 + 24) 32
      some (⟨poll_id, poll_owner, poll_name, poll_description,
             poll_start, poll_end, candidate_amount, candidate_winner⟩,
            o4 + 24 + 32)

/-- Poll::try_from_anchor_bytes as the source returns it: just the Poll. -/
def tryFromAnchorBytes (data : List Nat) : Option Poll :=
  (tryFromAnchorBytesAux data).map Prod.fst

/-- decode_poll from src/main.rs: require at least 8 bytes, split off the
8-byte discriminator without inspecting it, decode the remainder. -/
def decodePoll (data : List Nat) : Option Poll :=
  if data.length < 8 then none
  else tryFromAnchorBytes (data.drop 8)

/-! ## Concrete end-to-end payload (spec section 8 scenario) -/

/-- The concrete post-discriminator Poll payload of the end-to-end scenario:
poll_id=7, owner = 32 zero bytes, name "A", description empty,
poll_start=1000, poll_end=2000, candidate_amount=2, winner = 32 bytes 0xFF. -/
def payloadC1 : List Nat :=
  [7, 0, 0, 0, 0, 0, 0, 0] ++ List.replicate 32 0 ++
  [1, 0, 0, 0, 65] ++ [0, 0, 0, 0] ++
  [232, 3, 0, 0, 0, 0, 0, 0] ++ [208, 7, 0, 0, 0, 0, 0, 0] ++
  [2, 0, 0, 0, 0, 0, 0, 0] ++ List.replicate 32 255

/-- The Poll record the scenario payload must decode to. -/
def pollC1 : Poll :=
  ⟨7, List.replicate 32 0, [65], [], 1000, 2000, 2, List.replicate 32 255⟩

/-! ## Panic-aware rendering of the decoder

Rust slice indexing data[a..b] panics unless a <= b <= data.len(), and
try_into().unwrap() panics unless the slice has exactly the expected
length. The following functions model those partial operations explicitly
(outer None = panic), so that totality of the decoder is a theorem rather
than an artifact of the embedding. -/

/-- Rust range slicing data[a..b]: panics (None) unless a <= b <= len. -/
def sliceP (l : List Nat) (a b : Nat) : Option (List Nat) :=
  if a ≤ b ∧ b ≤ l.length then some ((l.drop a).take (b - a)) else none

/-- try_into().unwrap() to a fixed-size array of n bytes: panics (None)
unless the slice length is exactly n. -/
def unwrapArr (l : List Nat) (n : Nat) : Option (List Nat) :=
  if l.length = n then some l else none

/-- read_anchor_string_manual with every panic source explicit: outer None
is a panic, inner value is the function result. -/
def readAnchorStringManualP (data : List Nat) (maxLen : Nat) :
    Option (Option (List Nat × Nat)) :=
  if data.length < 4 then some none
  else
    match sliceP data 0 4 with
    | none => none
    | some s4 =>
    match unwrapArr s4 4 with
    | none => none
    | some lenBytes =>
    let len := leNat lenBytes
    if len > maxLen then some none
    else if data.length < 4 + len then some none
    else
      match sliceP data 4 (4 + len) with
      | none => none
      | some stringBytes =>
        if isValidUtf8 stringBytes then some (some (stringBytes, 4 + len))
        else some none

/-- Poll::try_from_anchor_bytes with every panic source explicit: outer
None is a panic, inner value is the function result. -/
def tryFromAnchorBytesP (data : List Nat) : Option (Option Poll) :=
  if data.length < 0 + 8 then some none else
  match sliceP data 0 8 with
  | none => none
  | some s0 =>
  match unwrapArr s0 8 with
  | none => none
  | some idBytes =>
  let poll_id := leNat idBytes
  if data.length < 8 + 32 then some none else
  match sliceP data 8 40 with
  | none => none
  | some s1 =>
  match unwrapArr s1 32 with
  | none => none
  | some poll_owner =>
  match readAnchorStringManualP (data.drop 40) 64 with
  | none => none
  | some none => some none
  | some (some (poll_name, len1)) =>
  match readAnchorStringManualP (data.drop (40 + len1)) 280 with
  | none => none
  | some none => some none
  | some (some (poll_description, len2)) =>
  let o4 := 40 + len1 + len2
  if data.length < o4 + 8 then some none else
  match sliceP data o4 (o4 + 8) with
  | none => none
  | some s2 =>
  match unwrapArr s2 8 with
  | none => none
  | some startBytes =>
  let poll_start := leNat startBytes
  if data.length < o4 + 8 + 8 then some none else
  match sliceP data (o4 + 8) (o4 + 16) with
  | none => none
  | some s3 =>
  match unwrapArr s3 8 with
  | none => none
  | some endBytes =>
  let poll_end := leNat endBytes
  if data.length < o4 + 16 + 8 then some none else
  match sliceP data (o4 + 16) (o4 + 24) with
  | none => none
  | some s4 =>
  match unwrapArr s4 8 with
  | none => none
  | some amountBytes =>
  let candidate_amount := leNat amountBytes
  if data.length < o4 + 24 + 32 then some none else
  match sliceP data (o4 + 24) (o4 + 56) with
  | none => none
  | some s5 =>
  match unwrapArr s5 32 with
  | none => none
  | some candidate_winner =>
  some (some ⟨poll_id, poll_owner, poll_name, poll_description,
              poll_start, poll_end, candidate_amount, candidate_winner⟩)

/-! ## Persistence record construction (src/main.rs handle_response,
src/db/models.rs NewPoll) -/

/-- The NewPoll row handed to the Diesel upsert. The four 64-bit counters
are i64 columns, modelled as Int. -/
structure NewPoll where
  poll_id : Int
  poll_owner : List Nat
  poll_name : List Nat
  poll_description : List Nat
  poll_start : Int
  poll_end : Int
  candidate_amount : Int
  candidate_winner : List Nat
  deriving DecidableEq, Repr

/-- Rust cast u64 -> i64 (x as i64): reinterpret the 64-bit pattern as a
two's-complement signed value. -/
def u64AsI64 (x : Nat) : Int :=
  if x % 2 ^ 64 < 2 ^ 63 then ((x % 2 ^ 64 : Nat) : Int)
  else ((x % 2 ^ 64 : Nat) : Int) - 2 ^ 64

/-- Construction of the NewPoll row from a decoded Poll, as written inline
in handle_response (src/main.rs): each u64 field is cast with as i64, the
owner and winner byte arrays and the two strings pass through unchanged. -/
def buildNewPoll (p : Poll) : NewPoll :=
  { poll_id := u64AsI64 p.poll_id
    poll_owner := p.poll_owner
    poll_name := p.poll_name
    poll_description := p.poll_description
    poll_start := u64AsI64 p.poll_start
    poll_end := u64AsI64 p.poll_end
    candidate_amount := u64AsI64 p.candidate_amount
    candidate_winner := p.candidate_winner }

/-! ## Shutdown sequencing of main (src/main.rs, after the select block) -/

/-- Outcome of the process after the listener loop ends: either a clean
exit carrying the lines printed on the way out, or a process-level failure
carrying the error surfaced out of main. -/
inductive ShutdownOutcome where
  | cleanExit (logLines : List String)
  | processFailure (err : String)
  deriving DecidableEq, Repr

/-- Whether the outcome is a process-level failure. -/
def ShutdownOutcome.isProcessFailure : ShutdownOutcome → Bool
  | .cleanExit _ => false
  | .processFailure _ => true

/-- The teardown tail of main (src/main.rs): drop(stream) releases the
subscription, then client.shutdown().await? runs; on Err the question-mark
operator returns the error from main (a process failure), on Ok the
program prints Good Bye and returns Ok(()). -/
def mainTeardown (shutdownResult : Except String Unit) : ShutdownOutcome :=
  match shutdownResult with
  | Except.error e => ShutdownOutcome.processFailure e
  | Except.ok _ => ShutdownOutcome.cleanExit ["Good Bye"]

/-! ## Wire-format observation helpers

Derived offsets of the Poll layout, used to state properties about the
string fields: the name length prefix sits at offset 40, the name bytes at
44; the description field starts right after the name. -/

/-- The value of the 4-byte little-endian name length prefix. -/
def nameLenOf (data : List Nat) : Nat := leNat (readSlice data 40 4)

/-- The declared-length byte payload of the name field. -/
def nameBytesOf (data : List Nat) : List Nat := readSlice data 44 (nameLenOf data)

/-- Offset of the description field: right after the name field. -/
def descOffsetOf (data : List Nat) : Nat := 44 + nameLenOf data

/-- The value of the 4-byte little-endian description length prefix. -/
def descLenOf (data : List Nat) : Nat := leNat (readSlice data (descOffsetOf data) 4)

/-- The declared-length byte payload of the description field. -/
def descBytesOf (data : List Nat) : List Nat :=
  readSlice data (descOffsetOf data + 4) (descLenOf data)

/-- A Poll whose counters exercise the high half of the 64-bit range. -/
def pollBig : Poll :=
  ⟨2 ^ 63, [], [], [], 2 ^ 63 + 5, 7, 2 ^ 64 - 1, []⟩

/-- A buffer whose name length prefix declares 65 bytes (above the 64
maximum) and physically carries them. -/
def payloadLongName : List Nat :=
  List.replicate 40 0 ++ [65, 0, 0, 0] ++ List.replicate 65 97

/-- A buffer with an empty name and a description length prefix declaring
281 bytes (above the 280 maximum), physically present. -/
def payloadLongDesc : List Nat :=
  List.replicate 40 0 ++ [0, 0, 0, 0] ++ [25, 1, 0, 0] ++ List.replicate 281 97

/-- A buffer whose name field declares 1 byte and carries 0xFF, which is
not valid UTF-8. -/
def payloadBadNameUtf8 : List Nat :=
  List.replicate 40 0 ++ [1, 0, 0, 0, 255]

/-- A buffer with an empty name and a description field declaring 2 bytes
carrying [0xC3, 0x28], which is not valid UTF-8. -/
def payloadBadDescUtf8 : List Nat :=
  List.replicate 40 0 ++ [0, 0, 0, 0] ++ [2, 0, 0, 0, 195, 40]

/-! ## General lemmas about the byte primitives -/

theorem length_readSlice (l : List Nat) (a n : Nat) :
    (readSlice l a n).length = min n (l.length - a) := by
  simp [readSlice]

theorem readSlice_take (l : List Nat) (m a n : Nat) (h : a + n ≤ m) :
    readSlice (l.take m) a n = readSlice l a n := by
  unfold readSlice
  rw [List.drop_take, List.take_take]
  congr 1
  omega

theorem readSlice_drop (l : List Nat) (a b n : Nat) :
    readSlice (l.drop a) b n = readSlice l (a + b) n := by
  unfold readSlice
  rw [List.drop_drop]

theorem sliceP_eq (l : List Nat) (a b n : Nat) (hab : a ≤ b) (hb : b ≤ l.length)
    (hn : b - a = n) : sliceP l a b = some (readSlice l a n) := by
  unfold sliceP readSlice
  rw [if_pos ⟨hab, hb⟩, hn]

theorem unwrapArr_eq (l : List Nat) (n : Nat) (h : l.length = n) :
    unwrapArr l n = some l := by
  unfold unwrapArr
  rw [if_pos h]

/-! ## Evaluation shapes of the decoder -/

theorem readAnchorStringManual_eq (data : List Nat) (maxLen : Nat) :
    readAnchorStringManual data maxLen =
      if data.length < 4 then none
      else if maxLen < leNat (readSlice data 0 4) then none
      else if data.length < 4 + leNat (readSlice data 0 4) then none
      else if isValidUtf8 (readSlice data 4 (leNat (readSlice data 0 4))) then
        some (readSlice data 4 (leNat (readSlice data 0 4)),
              4 + leNat (readSlice data 0 4))
      else none := rfl

theorem tryFromAnchorBytesAux_eq (data : List Nat) :
    tryFromAnchorBytesAux data =
      if data.length < 8 then none
      else if data.length < 40 then none
      else
        match readAnchorStringManual (data.drop 40) 64 with
        | none => none
        | some (nm, len1) =>
          match readAnchorStringManual (data.drop (40 + len1)) 280 with
          | none => none
          | some (ds, len2) =>
            if data.length < 40 + len1 + len2 + 56 then none
            else
              some (⟨leNat (readSlice data 0 8), readSlice data 8 32, nm, ds,
                     leNat (readSlice data (40 + len1 + len2) 8),
                     leNat (readSlice data (40 + len1 + len2 + 8) 8),
                     leNat (readSlice data (40 + len1 + len2 + 16) 8),
                     readSlice data (40 + len1 + len2 + 24) 32⟩,
                    40 + len1 + len2 + 56) := by
  unfold tryFromAnchorBytesAux
  by_cases h1 : data.length < 8
  · simp [h1]
  by_cases h2 : data.length < 40
  · simp [h1, h2]
  simp only [if_neg h1, if_neg h2,
    if_neg (show ¬data.length < 0 + 8 by omega),
    if_neg (show ¬data.length < 8 + 32 by omega),
    if_neg (show ¬data.length < 40 by omega)]
  cases hm1 : readAnchorStringManual (data.drop 40) 64 with
  | none => rfl
  | some v1 =>
    obtain ⟨nm, len1⟩ := v1
    dsimp only
    cases hm2 : readAnchorStringManual (data.drop (40 + len1)) 280 with
    | none => rfl
    | some v2 =>
      obtain ⟨ds, len2⟩ := v2
      dsimp only
      split_ifs <;> first | rfl | (exfalso; omega)

theorem u64AsI64_facts (x : Nat) (hx : x < 2 ^ 64) :
    u64AsI64 x % 2 ^ 64 = (x : Int) % 2 ^ 64 ∧
    (2 ^ 63 ≤ x → u64AsI64 x < 0 ∧ u64AsI64 x ≠ (x : Int)) := by
  unfold u64AsI64
  rw [Nat.mod_eq_of_lt hx]
  have e64 : (2 : Int) ^ 64 = 18446744073709551616 := by norm_num
  have e63 : (2 : Nat) ^ 63 = 9223372036854775808 := by norm_num
  have hxI : (x : Int) < 18446744073709551616 := by
    have : ((2 : Nat) ^ 64 : Int) = 18446744073709551616 := by norm_num
    omega
  by_cases h : x < 2 ^ 63
  · rw [if_pos h]
    exact ⟨rfl, fun hc => absurd h (by omega)⟩
  · rw [if_neg h]
    rw [e64]
    refine ⟨by omega, fun hc => ⟨by omega, by omega⟩⟩

/-! ## Claim theorems -/

/-- Claim C1: the concrete 105-byte payload with poll_id 7, a zero owner,
name "A", empty description, start 1000, end 2000, candidate_amount 2 and
an all-0xFF winner decodes to exactly that Poll record. -/
theorem claim_c1_concrete_payload_decodes :
    tryFromAnchorBytes payloadC1 = some pollC1 := by decide

/-- Claim C2 (refuting evidence, code bug): the classifier is not total on
slices of every length. On a 9-byte input the source reaches
descriminator.copy_from_slice(data) with a source slice of length 9 and a
destination of length 8, which panics; the model evaluates to the panic
value none instead of a Kind. -/
theorem claim_c2_classifier_panics_on_nine_bytes :
    matchVotingAccountType (List.replicate 9 0) = none := by decide

/-- Claim C6: the three registered discriminator constants are pairwise
distinct, and the classifier maps every 8-byte input equal to one of them
to the corresponding kind and every other 8-byte input to Unknown. -/
theorem claim_c6_discriminator_classification :
    (POLL_DISCRIMINATOR ≠ POOL_CANDIDATE_DISCRIMINATOR ∧
     POLL_DISCRIMINATOR ≠ VOTE_DISCRIMINATOR ∧
     POOL_CANDIDATE_DISCRIMINATOR ≠ VOTE_DISCRIMINATOR) ∧
    ∀ data : List Nat, data.length = 8 →
      matchVotingAccountType data =
        some (if data = POLL_DISCRIMINATOR then VotingAccountType.poll
          else if data = POOL_CANDIDATE_DISCRIMINATOR then VotingAccountType.candidate
          else if data = VOTE_DISCRIMINATOR then VotingAccountType.vote
          else VotingAccountType.unknown) := by
  refine ⟨by decide, fun data h => ?_⟩
  unfold matchVotingAccountType
  rw [if_neg (by omega), if_pos h]

/-- Witness for C6: the classifier at the three registered constants and
at one other 8-byte input. -/
theorem claim_c6_witness :
    matchVotingAccountType POLL_DISCRIMINATOR = some VotingAccountType.poll ∧
    matchVotingAccountType POOL_CANDIDATE_DISCRIMINATOR = some VotingAccountType.candidate ∧
    matchVotingAccountType VOTE_DISCRIMINATOR = some VotingAccountType.vote ∧
    matchVotingAccountType (List.replicate 8 0) = some VotingAccountType.unknown := by
  refine ⟨?_, ?_, ?_, ?_⟩
  · rw [claim_c6_discriminator_classification.2 POLL_DISCRIMINATOR (by decide)]; decide
  · rw [claim_c6_discriminator_classification.2 POOL_CANDIDATE_DISCRIMINATOR (by decide)]; decide
  · rw [claim_c6_discriminator_classification.2 VOTE_DISCRIMINATOR (by decide)]; decide
  · rw [claim_c6_discriminator_classification.2 (List.replicate 8 0) (by decide)]; decide

/-- Counterexample to claim C7 as stated: a failing teardown call is not
swallowed; it is surfaced out of main by the question-mark operator as a
process failure, so the process does not proceed to a clean exit. -/
theorem claim_c7_counterexample :
    (mainTeardown (Except.error "websocket shutdown failed")).isProcessFailure = true := rfl

/-- Claim C7 as amended: when the teardown call fails during shutdown, the
error propagates out of main as a process failure (nothing further is
printed); only when teardown succeeds does the process print Good Bye and
exit cleanly. -/
theorem claim_c7_teardown_error_propagates :
    (∀ e : String, mainTeardown (Except.error e) = ShutdownOutcome.processFailure e) ∧
    mainTeardown (Except.ok ()) = ShutdownOutcome.cleanExit ["Good Bye"] :=
  ⟨fun _ => rfl, rfl⟩

/-- Witness for C7 (amended): the teardown outcome at one concrete error
and at success. -/
theorem claim_c7_witness :
    mainTeardown (Except.error "boom") = ShutdownOutcome.processFailure "boom" :=
  claim_c7_teardown_error_propagates.1 "boom"

/-- Claim C9: building the persistence row reinterprets each 64-bit
unsigned counter as a signed 64-bit integer with the same bit pattern
(equal residues mod 2^64); every decoded value at or above 2^63 reaches
the upsert, including the key poll_id, as a negative number different from
the decoded value, while the owner, name, description and winner fields
pass through unchanged. -/
theorem claim_c9_persistence_casts (p : Poll)
    (h1 : p.poll_id < 2 ^ 64) (h2 : p.poll_start < 2 ^ 64)
    (h3 : p.poll_end < 2 ^ 64) (h4 : p.candidate_amount < 2 ^ 64) :
    ((buildNewPoll p).poll_id % 2 ^ 64 = (p.poll_id : Int) % 2 ^ 64 ∧
     (buildNewPoll p).poll_start % 2 ^ 64 = (p.poll_start : Int) % 2 ^ 64 ∧
     (buildNewPoll p).poll_end % 2 ^ 64 = (p.poll_end : Int) % 2 ^ 64 ∧
     (buildNewPoll p).candidate_amount % 2 ^ 64 = (p.candidate_amount : Int) % 2 ^ 64) ∧
    ((2 ^ 63 ≤ p.poll_id →
        (buildNewPoll p).poll_id < 0 ∧ (buildNewPoll p).poll_id ≠ (p.poll_id : Int)) ∧
     (2 ^ 63 ≤ p.poll_start →
        (buildNewPoll p).poll_start < 0 ∧ (buildNewPoll p).poll_start ≠ (p.poll_start : Int)) ∧
     (2 ^ 63 ≤ p.poll_end →
        (buildNewPoll p).poll_end < 0 ∧ (buildNewPoll p).poll_end ≠ (p.poll_end : Int)) ∧
     (2 ^ 63 ≤ p.candidate_amount →
        (buildNewPoll p).candidate_amount < 0 ∧
        (buildNewPoll p).candidate_amount ≠ (p.candidate_amount : Int))) ∧
    ((buildNewPoll p).poll_owner = p.poll_owner ∧
     (buildNewPoll p).poll_name = p.poll_name ∧
     (buildNewPoll p).poll_description = p.poll_description ∧
     (buildNewPoll p).candidate_winner = p.candidate_winner) := by
  refine ⟨⟨(u64AsI64_facts _ h1).1, (u64AsI64_facts _ h2).1,
           (u64AsI64_facts _ h3).1, (u64AsI64_facts _ h4).1⟩,
          ⟨(u64AsI64_facts _ h1).2, (u64AsI64_facts _ h2).2,
           (u64AsI64_facts _ h3).2, (u64AsI64_facts _ h4).2⟩,
          rfl, rfl, rfl, rfl⟩

/-- Witness for C9: on a Poll whose poll_id is 2^63 and whose
candidate_amount is 2^64 - 1, the row handed to the upsert carries
negative values that differ from the decoded ones. -/
theorem claim_c9_witness :
    (buildNewPoll pollBig).poll_id < 0 ∧
    (buildNewPoll pollBig).poll_id ≠ (pollBig.poll_id : Int) ∧
    (buildNewPoll pollBig).candidate_amount < 0 := by
  have h := claim_c9_persistence_casts pollBig (by decide) (by decide) (by decide) (by decide)
  exact ⟨(h.2.1.1 (by decide)).1, (h.2.1.1 (by decide)).2, (h.2.1.2.2.2 (by decide)).1⟩

/-- Claim C10: decode_poll never inspects the 8 bytes it strips: for every
8-byte tag and every remainder, decoding tag ++ rest equals decoding rest
directly with try_from_anchor_bytes, and every buffer shorter than 8 bytes
yields no record. -/
theorem claim_c10_decode_poll_ignores_tag :
    (∀ tag rest : List Nat, tag.length = 8 →
       decodePoll (tag ++ rest) = tryFromAnchorBytes rest) ∧
    (∀ data : List Nat, data.length < 8 → decodePoll data = none) := by
  constructor
  · intro tag rest htag
    unfold decodePoll
    rw [if_neg (show ¬(tag ++ rest).length < 8 by rw [List.length_append, htag]; omega)]
    rw [show (tag ++ rest).drop 8 = rest from by rw [← htag, List.drop_left]]
  · intro data h
    unfold decodePoll
    rw [if_pos h]

/-- Witness for C10: a buffer carrying the Vote discriminator followed by
a valid Poll body still decodes as that Poll, and a 3-byte buffer yields
no record. -/
theorem claim_c10_witness :
    decodePoll (VOTE_DISCRIMINATOR ++ payloadC1) = some pollC1 ∧
    decodePoll [1, 2, 3] = none := by
  constructor
  · rw [claim_c10_decode_poll_ignores_tag.1 VOTE_DISCRIMINATOR payloadC1 (by decide)]
    decide
  · exact claim_c10_decode_poll_ignores_tag.2 [1, 2, 3] (by decide)

/-! ## Lemmas about the string reader -/

theorem readAnchorStringManual_some_elim (l : List Nat) (maxLen : Nat)
    (s : List Nat) (c : Nat)
    (h : readAnchorStringManual l maxLen = some (s, c)) :
    4 ≤ l.length ∧ leNat (readSlice l 0 4) ≤ maxLen ∧
    4 + leNat (readSlice l 0 4) ≤ l.length ∧
    isValidUtf8 (readSlice l 4 (leNat (readSlice l 0 4))) = true ∧
    s = readSlice l 4 (leNat (readSlice l 0 4)) ∧
    c = 4 + leNat (readSlice l 0 4) := by
  rw [readAnchorStringManual_eq] at h
  by_cases h1 : l.length < 4
  · rw [if_pos h1] at h; exact absurd h (by simp)
  rw [if_neg h1] at h
  by_cases h2 : maxLen < leNat (readSlice l 0 4)
  · rw [if_pos h2] at h; exact absurd h (by simp)
  rw [if_neg h2] at h
  by_cases h3 : l.length < 4 + leNat (readSlice l 0 4)
  · rw [if_pos h3] at h; exact absurd h (by simp)
  rw [if_neg h3] at h
  by_cases h4 : isValidUtf8 (readSlice l 4 (leNat (readSlice l 0 4))) = true
  · rw [if_pos h4] at h
    injection h with h
    injection h with hs hc
    exact ⟨by omega, by omega, by omega, h4, hs.symm, hc.symm⟩
  · rw [if_neg h4] at h; exact absurd h (by simp)

theorem readAnchorStringManual_drop_long (data : List Nat) (o maxLen : Nat)
    (ho : o + 4 ≤ data.length)
    (h : maxLen < leNat (readSlice data o 4)) :
    readAnchorStringManual (data.drop o) maxLen = none := by
  rw [readAnchorStringManual_eq]
  have e1 : readSlice (data.drop o) 0 4 = readSlice data o 4 := by
    rw [readSlice_drop]; norm_num
  rw [e1, if_neg (show ¬(data.drop o).length < 4 by rw [List.length_drop]; omega),
    if_pos h]

theorem readAnchorStringManual_drop_some (data : List Nat) (o maxLen : Nat)
    (hmax : leNat (readSlice data o 4) ≤ maxLen)
    (hbytes : o + 4 + leNat (readSlice data o 4) ≤ data.length)
    (hv : isValidUtf8 (readSlice data (o + 4) (leNat (readSlice data o 4))) = true) :
    readAnchorStringManual (data.drop o) maxLen =
      some (readSlice data (o + 4) (leNat (readSlice data o 4)),
            4 + leNat (readSlice data o 4)) := by
  rw [readAnchorStringManual_eq]
  have e1 : readSlice (data.drop o) 0 4 = readSlice data o 4 := by
    rw [readSlice_drop]; norm_num
  rw [e1]
  have e2 := readSlice_drop data o 4 (leNat (readSlice data o 4))
  rw [e2]
  rw [if_neg (show ¬(data.drop o).length < 4 by rw [List.length_drop]; omega),
    if_neg (show ¬maxLen < leNat (readSlice data o 4) by omega),
    if_neg (show ¬(data.drop o).length < 4 + leNat (readSlice data o 4) by
      rw [List.length_drop]; omega),
    if_pos hv]

theorem readAnchorStringManual_drop_invalid (data : List Nat) (o maxLen : Nat)
    (hmax : leNat (readSlice data o 4) ≤ maxLen)
    (hbytes : o + 4 + leNat (readSlice data o 4) ≤ data.length)
    (hv : isValidUtf8 (readSlice data (o + 4) (leNat (readSlice data o 4))) = false) :
    readAnchorStringManual (data.drop o) maxLen = none := by
  rw [readAnchorStringManual_eq]
  have e1 : readSlice (data.drop o) 0 4 = readSlice data o 4 := by
    rw [readSlice_drop]; norm_num
  rw [e1]
  have e2 := readSlice_drop data o 4 (leNat (readSlice data o 4))
  rw [e2]
  rw [if_neg (show ¬(data.drop o).length < 4 by rw [List.length_drop]; omega),
    if_neg (show ¬maxLen < leNat (readSlice data o 4) by omega),
    if_neg (show ¬(data.drop o).length < 4 + leNat (readSlice data o 4) by
      rw [List.length_drop]; omega),
    if_neg (show ¬isValidUtf8 (readSlice data (o + 4) (leNat (readSlice data o 4)))
        = true by rw [hv]; simp)]

theorem readAnchorStringManual_take_ge (l : List Nat) (maxLen m : Nat)
    (s : List Nat) (c : Nat)
    (h : readAnchorStringManual l maxLen = some (s, c)) (hm : c ≤ m) :
    readAnchorStringManual (l.take m) maxLen = some (s, c) := by
  obtain ⟨h1, h2, h3, h4, hs, hc⟩ := readAnchorStringManual_some_elim l maxLen s c h
  subst hs; subst hc
  rw [readAnchorStringManual_eq]
  rw [readSlice_take l m 0 4 (by omega)]
  rw [readSlice_take l m 4 (leNat (readSlice l 0 4)) (by omega)]
  rw [if_neg (show ¬(l.take m).length < 4 by rw [List.length_take]; omega),
    if_neg (show ¬maxLen < leNat (readSlice l 0 4) by omega),
    if_neg (show ¬(l.take m).length < 4 + leNat (readSlice l 0 4) by
      rw [List.length_take]; omega),
    if_pos h4]

theorem readAnchorStringManual_take_lt (l : List Nat) (maxLen m : Nat)
    (s : List Nat) (c : Nat)
    (h : readAnchorStringManual l maxLen = some (s, c)) (hm : m < c) :
    readAnchorStringManual (l.take m) maxLen = none := by
  obtain ⟨h1, h2, h3, h4, hs, hc⟩ := readAnchorStringManual_some_elim l maxLen s c h
  subst hs; subst hc
  rw [readAnchorStringManual_eq]
  by_cases k : m < 4
  · rw [if_pos (show (l.take m).length < 4 by rw [List.length_take]; omega)]
  rw [readSlice_take l m 0 4 (by omega)]
  rw [if_neg (show ¬(l.take m).length < 4 by rw [List.length_take]; omega),
    if_neg (show ¬maxLen < leNat (readSlice l 0 4) by omega),
    if_pos (show (l.take m).length < 4 + leNat (readSlice l 0 4) by
      rw [List.length_take]; omega)]

/-! ## Truncation behaviour of the full decoder -/

theorem tryFromAnchorBytesAux_some_elim (data : List Nat) (p : Poll) (c : Nat)
    (h : tryFromAnchorBytesAux data = some (p, c)) :
    ∃ nm len1 ds len2,
      readAnchorStringManual (data.drop 40) 64 = some (nm, len1) ∧
      readAnchorStringManual (data.drop (40 + len1)) 280 = some (ds, len2) ∧
      c = 40 + len1 + len2 + 56 ∧ c ≤ data.length := by
  rw [tryFromAnchorBytesAux_eq] at h
  by_cases h1 : data.length < 8
  · rw [if_pos h1] at h; exact absurd h (by simp)
  rw [if_neg h1] at h
  by_cases h2 : data.length < 40
  · rw [if_pos h2] at h; exact absurd h (by simp)
  rw [if_neg h2] at h
  rcases hm1 : readAnchorStringManual (data.drop 40) 64 with _ | ⟨nm, len1⟩
  · rw [hm1] at h; exact absurd h (by simp)
  rw [hm1] at h
  dsimp only at h
  rcases hm2 : readAnchorStringManual (data.drop (40 + len1)) 280 with _ | ⟨ds, len2⟩
  · rw [hm2] at h; exact absurd h (by simp)
  rw [hm2] at h
  dsimp only at h
  by_cases h3 : data.length < 40 + len1 + len2 + 56
  · rw [if_pos h3] at h; exact absurd h (by simp)
  rw [if_neg h3] at h
  injection h with h
  injection h with hp hc
  exact ⟨nm, len1, ds, len2, rfl, hm2, hc.symm, by omega⟩

theorem tryFromAnchorBytesAux_take_none (data : List Nat) (p : Poll) (c m : Nat)
    (h : tryFromAnchorBytesAux data = some (p, c)) (hm : m < c) :
    tryFromAnchorBytesAux (data.take m) = none := by
  obtain ⟨nm, len1, ds, len2, hm1, hm2, hc, hcl⟩ :=
    tryFromAnchorBytesAux_some_elim data p c h
  subst hc
  have hlt : (data.take m).length = m := by rw [List.length_take]; omega
  rw [tryFromAnchorBytesAux_eq]
  by_cases k1 : m < 8
  · rw [if_pos (show (data.take m).length < 8 by omega)]
  rw [if_neg (show ¬(data.take m).length < 8 by omega)]
  by_cases k2 : m < 40
  · rw [if_pos (show (data.take m).length < 40 by omega)]
  rw [if_neg (show ¬(data.take m).length < 40 by omega)]
  rw [List.drop_take]
  by_cases k3 : m < 40 + len1
  · rw [readAnchorStringManual_take_lt (data.drop 40) 64 (m - 40) nm len1 hm1 (by omega)]
  rw [readAnchorStringManual_take_ge (data.drop 40) 64 (m - 40) nm len1 hm1 (by omega)]
  dsimp only
  rw [List.drop_take]
  by_cases k4 : m < 40 + len1 + len2
  · rw [readAnchorStringManual_take_lt (data.drop (40 + len1)) 280 (m - (40 + len1))
      ds len2 hm2 (by omega)]
  rw [readAnchorStringManual_take_ge (data.drop (40 + len1)) 280 (m - (40 + len1))
    ds len2 hm2 (by omega)]
  dsimp only
  rw [if_pos (show (data.take m).length < 40 + len1 + len2 + 56 by omega)]

/-- Claim C3: decoding is all-or-nothing under truncation. For every
payload that try_from_anchor_bytes accepts while consuming exactly the
whole buffer (no trailing bytes), the untruncated payload decodes to its
Poll record, and removing any suffix of 1 or more bytes makes the decode
fail. -/
theorem claim_c3_truncation_all_or_nothing (data : List Nat) (p : Poll)
    (hexact : tryFromAnchorBytesAux data = some (p, data.length)) :
    tryFromAnchorBytes data = some p ∧
    ∀ k : Nat, 1 ≤ k → k ≤ data.length →
      tryFromAnchorBytes (data.take (data.length - k)) = none := by
  constructor
  · unfold tryFromAnchorBytes
    rw [hexact]
    rfl
  · intro k hk1 hk2
    unfold tryFromAnchorBytes
    rw [tryFromAnchorBytesAux_take_none data p data.length (data.length - k) hexact
      (by omega)]
    rfl

/-- Witness for C3: the scenario payload is exact (consumes all 105
bytes); it decodes whole, and decoding it with its last byte removed
fails. -/
theorem claim_c3_witness :
    tryFromAnchorBytes payloadC1 = some pollC1 ∧
    tryFromAnchorBytes (payloadC1.take 104) = none := by
  have h := claim_c3_truncation_all_or_nothing payloadC1 pollC1 (by decide)
  refine ⟨h.1, ?_⟩
  have h2 := h.2 1 (by decide) (by decide)
  have e : payloadC1.length - 1 = 104 := by decide
  rw [e] at h2
  exact h2

/-- Claim C4: a name length prefix above 64, or a description length
prefix above 280, makes the decode fail even when the declared number of
bytes is physically present after the prefix. -/
theorem claim_c4_length_limits :
    (∀ data : List Nat, 64 < nameLenOf data →
       44 + nameLenOf data ≤ data.length →
       tryFromAnchorBytes data = none) ∧
    (∀ data : List Nat, nameLenOf data ≤ 64 →
       44 + nameLenOf data ≤ data.length →
       isValidUtf8 (nameBytesOf data) = true →
       280 < descLenOf data →
       descOffsetOf data + 4 + descLenOf data ≤ data.length →
       tryFromAnchorBytes data = none) := by
  constructor
  · intro data hgt hphys
    simp only [nameLenOf] at hgt hphys
    unfold tryFromAnchorBytes
    rw [tryFromAnchorBytesAux_eq]
    rw [if_neg (show ¬data.length < 8 by omega),
      if_neg (show ¬data.length < 40 by omega)]
    rw [readAnchorStringManual_drop_long data 40 64 (by omega) hgt]
    rfl
  · intro data hle hphys hval hdgt hdphys
    simp only [nameLenOf] at hle hphys
    simp only [nameBytesOf, nameLenOf] at hval
    simp only [descLenOf, descOffsetOf, nameLenOf] at hdgt
    simp only [descOffsetOf, descLenOf, nameLenOf] at hdphys
    unfold tryFromAnchorBytes
    rw [tryFromAnchorBytesAux_eq]
    rw [if_neg (show ¬data.length < 8 by omega),
      if_neg (show ¬data.length < 40 by omega)]
    rw [readAnchorStringManual_drop_some data 40 64 hle (by omega)
      (show isValidUtf8 (readSlice data (40 + 4) (leNat (readSlice data 40 4)))
          = true from hval)]
    dsimp only
    rw [show 40 + (4 + leNat (readSlice data 40 4))
        = 44 + leNat (readSlice data 40 4) from by omega]
    rw [readAnchorStringManual_drop_long data (44 + leNat (readSlice data 40 4)) 280
      (by omega) hdgt]
    rfl

set_option maxRecDepth 40000 in
/-- Witness for C4: a buffer declaring a 65-byte name that is physically
present fails to decode, and a buffer declaring a 281-byte description
that is physically present fails to decode. -/
theorem claim_c4_witness :
    tryFromAnchorBytes payloadLongName = none ∧
    tryFromAnchorBytes payloadLongDesc = none := by
  constructor
  · exact claim_c4_length_limits.1 payloadLongName (by decide) (by decide)
  · exact claim_c4_length_limits.2 payloadLongDesc (by decide) (by decide) (by decide)
      (by decide) (by decide)

/-- Claim C5: a string field (name or description) whose declared length
is within its maximum and within the remaining bytes, but whose
declared-length payload is not valid UTF-8, makes the decode fail. -/
theorem claim_c5_invalid_utf8_rejected :
    (∀ data : List Nat, nameLenOf data ≤ 64 →
       44 + nameLenOf data ≤ data.length →
       isValidUtf8 (nameBytesOf data) = false →
       tryFromAnchorBytes data = none) ∧
    (∀ data : List Nat, nameLenOf data ≤ 64 →
       44 + nameLenOf data ≤ data.length →
       isValidUtf8 (nameBytesOf data) = true →
       descLenOf data ≤ 280 →
       descOffsetOf data + 4 + descLenOf data ≤ data.length →
       isValidUtf8 (descBytesOf data) = false →
       tryFromAnchorBytes data = none) := by
  constructor
  · intro data hle hphys hval
    simp only [nameLenOf] at hle hphys
    simp only [nameBytesOf, nameLenOf] at hval
    unfold tryFromAnchorBytes
    rw [tryFromAnchorBytesAux_eq]
    rw [if_neg (show ¬data.length < 8 by omega),
      if_neg (show ¬data.length < 40 by omega)]
    rw [readAnchorStringManual_drop_invalid data 40 64 hle (by omega)
      (show isValidUtf8 (readSlice data (40 + 4) (leNat (readSlice data 40 4)))
          = false from hval)]
    rfl
  · intro data hle hphys hval hdle hdphys hdval
    simp only [nameLenOf] at hle hphys
    simp only [nameBytesOf, nameLenOf] at hval
    simp only [descLenOf, descOffsetOf, nameLenOf] at hdle
    simp only [descOffsetOf, descLenOf, nameLenOf] at hdphys
    simp only [descBytesOf, descLenOf, descOffsetOf, nameLenOf] at hdval
    unfold tryFromAnchorBytes
    rw [tryFromAnchorBytesAux_eq]
    rw [if_neg (show ¬data.length < 8 by omega),
      if_neg (show ¬data.length < 40 by omega)]
    rw [readAnchorStringManual_drop_some data 40 64 hle (by omega)
      (show isValidUtf8 (readSlice data (40 + 4) (leNat (readSlice data 40 4)))
          = true from hval)]
    dsimp only
    rw [show 40 + (4 + leNat (readSlice data 40 4))
        = 44 + leNat (readSlice data 40 4) from by omega]
    rw [readAnchorStringManual_drop_invalid data (44 + leNat (readSlice data 40 4)) 280
      hdle (by omega)
      (show isValidUtf8 (readSlice data (44 + leNat (readSlice data 40 4) + 4)
          (leNat (readSlice data (44 + leNat (readSlice data 40 4)) 4))) = false
        from hdval)]
    rfl

set_option maxRecDepth 40000 in
/-- Witness for C5: a buffer whose 1-byte name payload is 0xFF fails to
decode, and a buffer whose 2-byte description payload is [0xC3, 0x28]
fails to decode. -/
theorem claim_c5_witness :
    tryFromAnchorBytes payloadBadNameUtf8 = none ∧
    tryFromAnchorBytes payloadBadDescUtf8 = none := by
  constructor
  · exact claim_c5_invalid_utf8_rejected.1 payloadBadNameUtf8 (by decide) (by decide)
      (by decide)
  · exact claim_c5_invalid_utf8_rejected.2 payloadBadDescUtf8 (by decide) (by decide)
      (by decide) (by decide) (by decide) (by decide)

/-! ## Panic freedom of the decoder -/

theorem readAnchorStringManualP_eq (data : List Nat) (maxLen : Nat) :
    readAnchorStringManualP data maxLen = some (readAnchorStringManual data maxLen) := by
  unfold readAnchorStringManualP
  rw [readAnchorStringManual_eq]
  by_cases h1 : data.length < 4
  · rw [if_pos h1, if_pos h1]
  rw [if_neg h1, if_neg h1]
  rw [sliceP_eq data 0 4 4 (by omega) (by omega) (by omega)]
  dsimp only
  rw [unwrapArr_eq (readSlice data 0 4) 4 (by rw [length_readSlice]; omega)]
  dsimp only
  by_cases h2 : maxLen < leNat (readSlice data 0 4)
  · rw [if_pos h2, if_pos h2]
  rw [if_neg h2, if_neg h2]
  by_cases h3 : data.length < 4 + leNat (readSlice data 0 4)
  · rw [if_pos h3, if_pos h3]
  rw [if_neg h3, if_neg h3]
  rw [sliceP_eq data 4 (4 + leNat (readSlice data 0 4)) (leNat (readSlice data 0 4))
    (by omega) (by omega) (by omega)]
  dsimp only
  by_cases h4 : isValidUtf8 (readSlice data 4 (leNat (readSlice data 0 4))) = true
  · rw [if_pos h4, if_pos h4]
  · rw [if_neg h4, if_neg h4]

/-- Claim C8: the Poll decoder is total. Every slice index, fixed-array
conversion and cursor advance in the source is guarded by the bounds check
before it: the panic-aware rendering of try_from_anchor_bytes never
reaches a panic and agrees with the Option-returning decoder on every
input buffer. -/
theorem claim_c8_decoder_never_panics (data : List Nat) :
    tryFromAnchorBytesP data = some (tryFromAnchorBytes data) := by
  unfold tryFromAnchorBytesP tryFromAnchorBytes
  rw [tryFromAnchorBytesAux_eq]
  by_cases h1 : data.length < 8
  · rw [if_pos (show data.length < 0 + 8 by omega), if_pos h1]; rfl
  rw [if_neg (show ¬data.length < 0 + 8 by omega), if_neg h1]
  rw [sliceP_eq data 0 8 8 (by omega) (by omega) (by omega)]
  dsimp only
  rw [unwrapArr_eq (readSlice data 0 8) 8 (by rw [length_readSlice]; omega)]
  dsimp only
  by_cases h2 : data.length < 40
  · rw [if_pos (show data.length < 8 + 32 by omega), if_pos h2]; rfl
  rw [if_neg (show ¬data.length < 8 + 32 by omega), if_neg h2]
  rw [sliceP_eq data 8 40 32 (by omega) (by omega) (by omega)]
  dsimp only
  rw [unwrapArr_eq (readSlice data 8 32) 32 (by rw [length_readSlice]; omega)]
  dsimp only
  rw [readAnchorStringManualP_eq]
  rcases hm1 : readAnchorStringManual (data.drop 40) 64 with _ | ⟨nm, len1⟩
  · rfl
  dsimp only
  rw [readAnchorStringManualP_eq]
  rcases hm2 : readAnchorStringManual (data.drop (40 + len1)) 280 with _ | ⟨ds, len2⟩
  · rfl
  dsimp only
  by_cases h3 : data.length < 40 + len1 + len2 + 8
  · rw [if_pos h3, if_pos (show data.length < 40 + len1 + len2 + 56 by omega)]; rfl
  rw [if_neg h3]
  rw [sliceP_eq data (40 + len1 + len2) (40 + len1 + len2 + 8) 8
    (by omega) (by omega) (by omega)]
  dsimp only
  rw [unwrapArr_eq (readSlice data (40 + len1 + len2) 8) 8
    (by rw [length_readSlice]; omega)]
  dsimp only
  by_cases h4 : data.length < 40 + len1 + len2 + 8 + 8
  · rw [if_pos h4, if_pos (show data.length < 40 + len1 + len2 + 56 by omega)]; rfl
  rw [if_neg h4]
  rw [sliceP_eq data (40 + len1 + len2 + 8) (40 + len1 + len2 + 16) 8
    (by omega) (by omega) (by omega)]
  dsimp only
  rw [unwrapArr_eq (readSlice data (40 + len1 + len2 + 8) 8) 8
    (by rw [length_readSlice]; omega)]
  dsimp only
  by_cases h5 : data.length < 40 + len1 + len2 + 16 + 8
  · rw [if_pos h5, if_pos (show data.length < 40 + len1 + len2 + 56 by omega)]; rfl
  rw [if_neg h5]
  rw [sliceP_eq data (40 + len1 + len2 + 16) (40 + len1 + len2 + 24) 8
    (by omega) (by omega) (by omega)]
  dsimp only
  rw [unwrapArr_eq (readSlice data (40 + len1 + len2 + 16) 8) 8
    (by rw [length_readSlice]; omega)]
  dsimp only
  by_cases h6 : data.length < 40 + len1 + len2 + 24 + 32
  · rw [if_pos h6, if_pos (show data.length < 40 + len1 + len2 + 56 by omega)]; rfl
  rw [if_neg h6, if_neg (show ¬data.length < 40 + len1 + len2 + 56 by omega)]
  rw [sliceP_eq data (40 + len1 + len2 + 24) (40 + len1 + len2 + 56) 32
    (by omega) (by omega) (by omega)]
  dsimp only
  rw [unwrapArr_eq (readSlice data (40 + len1 + len2 + 24) 32) 32
    (by rw [length_readSlice]; omega)]
  rfl

/-- Witness for C8: the panic-aware decoder at the concrete scenario
payload agrees with the plain decoder and does not panic. -/
theorem claim_c8_witness :
    tryFromAnchorBytesP payloadC1 = some (tryFromAnchorBytes payloadC1) :=
  claim_c8_decoder_never_panics payloadC1
